import Mathlib

/-!
Verification development for the cooperative trampoline scheduler of the
demiurge repository.  The scheduler exists in two source files,
`trampolinepfp.py` (namespace `TP` below) and `treamp2.py` (namespace `T2`),
both PEP-342-style trampolines driving nonblocking socket coroutines.

Modelling conventions:
* A Python generator is modelled as an explicit state machine: a state type
  plus a step function `state → sent-value → thrown-exception? → outcome`.
  `send` is an event with `exc = none`; `throw` has `exc = some e`.
* Generator exhaustion (falling off the end / `return`) is what Python
  reports as a `StopIteration` exception, so step functions report it as
  `raised .stopIteration` — exactly what the schedulers' `except` clauses see.
* Exception *instances* are abstracted to their kind (`Exc`); tracebacks and
  payloads are dropped (no code in either file reads a payload).
  `sys.exc_info()` is the triple (type, value, traceback); when a scheduler
  calls `schedule(parent, rest, *sys.exc_info())` the `val` slot of the new
  resumption therefore holds the exception *type* (modelled `SVal.excType`)
  and the `exc` slot is the thrown exception.  Under this abstraction a
  throw-injection is modelled as delivering the exception at the coroutine's
  suspension point; the precise argument plumbing of the two `throw` calls
  (`coroutine.throw(value, *exc)` in treamp2, the three exc_info components;
  `coroutine.throw(*exc)` in trampolinepfp, which passes the instance and
  the traceback positionally and which CPython's own argument validation
  would reject) is below this abstraction and is not modelled.
* Coroutine objects are immutable snapshots here; Python aliases mutable
  generator objects.  No theorem below resumes the same snapshot twice, so
  the difference is not observable in any statement proved.
* The OS is an oracle `W` read by one resume step: readiness flags, the
  bytes `recv` returns, the count `send` accepts, and whether the OS call
  raises `socket.error`.
-/

/-- Exception kinds that occur in the two source files. -/
inductive Exc where
  | stopIteration
  | connectionLost
  | socketError
  | attributeError
  | runtimeError
  | valueError
deriving DecidableEq, Repr

/-- Plain (non-generator) Python values sent into or yielded by the
coroutines of this program: `None`, byte strings, socket wrappers, and
exception type objects (placed in the `val` slot by `*sys.exc_info()`). -/
inductive SVal where
  | vnone
  | bytes (data : List Nat)
  | sock (fd : Nat)
  | excType (e : Exc)
deriving DecidableEq, Repr

/-- A value yielded to the trampoline: either a plain value or a generator
(the `isinstance(value, types.GeneratorType)` test in `schedule`). -/
inductive YVal (τ : Type) where
  | plain (v : SVal)
  | gen (g : τ)
deriving DecidableEq, Repr

/-- Result of one `send`/`throw` on a coroutine: either it yields a value
(with its successor state) or an exception propagates out of its frame. -/
inductive StepOut (τ : Type) where
  | yielded (v : YVal τ) (next : τ)
  | raised (e : Exc)
deriving DecidableEq, Repr

/-- One step of a coroutine, together with the trampoline side effects the
body performed while running: `trampoline.add(...)` calls (`adds`) and
`trampoline.stop()` calls (`stops`). -/
structure StepRes (τ : Type) where
  out : StepOut τ
  adds : List τ
  stops : Bool
deriving DecidableEq, Repr

/-- The coroutine semantics a scheduler is run against. -/
def StepFn (τ : Type) : Type := τ → SVal → Option Exc → StepRes τ

/-- One queued resume step: `schedule(coroutine, stack, val, *exc)` captures
the coroutine, its parent delegation stack, and the value/exception to
inject on next execution (`exc = none` means `send val`, `exc = some e`
means `throw`). -/
structure Resumption (τ : Type) where
  task : τ
  stack : List τ
  val : SVal
  exc : Option Exc
deriving DecidableEq, Repr

/-- Effect of executing one popped resume step on the trampoline:
resumptions appended to the queue (in order), the exception escaping
`resume()` into the run loop if any, and whether `stop()` was invoked. -/
structure ResumeEff (τ : Type) where
  entries : List (Resumption τ)
  escape : Option Exc
  stops : Bool
deriving DecidableEq, Repr

/-- A `trampoline.add(g)` performed inside a coroutine body is
`schedule(g)`: a top-level resumption with empty stack, `val=None`. -/
def addEntry {τ : Type} (g : τ) : Resumption τ :=
  ⟨g, [], .vnone, none⟩

namespace TP

/-- `Trampoline.schedule`'s `resume` closure in `trampolinepfp.py`
(lines 92-111).  The `try` block sends/throws into the coroutine;
`except StopIteration` reschedules the parent with `*sys.exc_info()` when a
stack exists and re-raises otherwise; any other exception propagates out of
`resume` (only `StopIteration` is caught).  The `else` branch pushes the
current coroutine under a yielded generator, or pops the stack for a
yielded plain value; with no stack a plain value is dropped.
Side-effect `adds` performed during the body are appended first. -/
def resume {τ : Type} (stepFn : StepFn τ) (r : Resumption τ) : ResumeEff τ :=
  let s := stepFn r.task r.val r.exc
  let bodyAdds := s.adds.map addEntry
  match s.out with
  | .raised .stopIteration =>
      match r.stack with
      | p :: rest =>
          ⟨bodyAdds ++ [⟨p, rest, .excType .stopIteration, some .stopIteration⟩],
            none, s.stops⟩
      | [] => ⟨bodyAdds, some .stopIteration, s.stops⟩
  | .raised e => ⟨bodyAdds, some e, s.stops⟩
  | .yielded (.gen g) c => ⟨bodyAdds ++ [⟨g, c :: r.stack, .vnone, none⟩], none, s.stops⟩
  | .yielded (.plain v) _ =>
      match r.stack with
      | p :: rest => ⟨bodyAdds ++ [⟨p, rest, v, none⟩], none, s.stops⟩
      | [] =>
          -- value dropped; the advanced coroutine is not re-enqueued
          ⟨bodyAdds, none, s.stops⟩

end TP

namespace T2

/-- `Trampoline.schedule`'s `resume` closure in `treamp2.py`
(lines 113-146).  A bare `except:` catches *any* exception and, when a
stack exists, reschedules the parent with `*sys.exc_info()`; with no stack
it re-raises.  Because the `isinstance`/`elif` block is *not* in an `else`,
after the except branch control falls through with `value = val` (the
originally injected value, never a generator), so a second resumption of
the parent with a plain `send val` is also appended. -/
def resume {τ : Type} (stepFn : StepFn τ) (r : Resumption τ) : ResumeEff τ :=
  let s := stepFn r.task r.val r.exc
  let bodyAdds := s.adds.map addEntry
  match s.out with
  | .raised e =>
      match r.stack with
      | p :: rest =>
          ⟨bodyAdds ++ [⟨p, rest, .excType e, some e⟩, ⟨p, rest, r.val, none⟩],
            none, s.stops⟩
      | [] => ⟨bodyAdds, some e, s.stops⟩
  | .yielded (.gen g) c => ⟨bodyAdds ++ [⟨g, c :: r.stack, .vnone, none⟩], none, s.stops⟩
  | .yielded (.plain v) _ =>
      match r.stack with
      | p :: rest => ⟨bodyAdds ++ [⟨p, rest, v, none⟩], none, s.stops⟩
      | [] => ⟨bodyAdds, none, s.stops⟩

end T2

/-- Scheduler state: the FIFO `queue` of resumptions and the `running`
flag. -/
structure SchedState (τ : Type) where
  queue : List (Resumption τ)
  running : Bool
deriving DecidableEq, Repr

/-- How a bounded execution of `run()` ended. -/
inductive RunRes where
  | normal        -- the `while self.running` loop exited; `run` returned
  | raised (e : Exc)  -- an exception escaped a resume step and propagated out
  | outOfFuel     -- the bounded model ran out of fuel (run still looping)
deriving DecidableEq, Repr

/-- `Trampoline.stop`: sets the cooperative flag to `False`
(`trampolinepfp.py` line 125-126, `treamp2.py` line 110-111). -/
def Trampoline.stop {τ : Type} (st : SchedState τ) : SchedState τ :=
  { st with running := false }

/-- The `while self.running` loop body of `Trampoline.run`, identical in
both files (`trampolinepfp.py` 113-123, `treamp2.py` 95-108), with fuel
bounding the number of iterations.  Each iteration: if the flag is down the
loop exits (the `finally` leaves `running = False`); otherwise pop and
execute the front resume step — its appends land at the queue's back, a
`stop()` performed by the body clears the flag, and an escaping exception
propagates out of `run` (the `finally` again clearing the flag).  An empty
queue just sleeps and loops. -/
def runAux {τ : Type} (resumeFn : Resumption τ → ResumeEff τ) :
    Nat → SchedState τ → RunRes × SchedState τ
  | 0, st => (.outOfFuel, st)
  | Nat.succ fuel, st =>
      if st.running then
        match st.queue with
        | [] => runAux resumeFn fuel st
        | r :: rest =>
            let eff := resumeFn r
            match eff.escape with
            | some e => (.raised e, ⟨rest ++ eff.entries, false⟩)
            | none =>
                runAux resumeFn fuel ⟨rest ++ eff.entries, st.running && !eff.stops⟩
      else
        (.normal, ⟨st.queue, false⟩)

/-- `Trampoline.run` (either file): sets `running = True`, then loops. -/
def Trampoline.run {τ : Type} (resumeFn : Resumption τ → ResumeEff τ)
    (fuel : Nat) (st : SchedState τ) : RunRes × SchedState τ :=
  runAux resumeFn fuel { st with running := true }

/-!
The OS oracle for one resume step: `select` readiness per interest, the
payload `recv` would deliver, the byte count `send` would accept, the
client descriptor `accept` would produce, and whether the OS call raises
`socket.error` during this step.
-/

/-- One step's view of the operating system. -/
structure W where
  readReady : Bool
  recvData : List Nat
  writeReady : Bool
  sendCount : Nat
  acceptReady : Bool
  client : Nat
  fault : Bool
deriving DecidableEq, Repr

/-- Outcome of one iteration of a `nonblocking_read` loop: the data
returned, a not-ready suspension (`yield None`), or an exception. -/
inductive RdOut where
  | ret (data : List Nat)
  | notReady
  | err (e : Exc)
deriving DecidableEq, Repr

/-- Outcome of one iteration of a `nonblocking_write` loop body (entered
with a nonempty buffer): the bytes handed to `send` this iteration and the
remaining buffer at the trailing `yield None`, or an exception. -/
inductive WrOut where
  | progressed (sentNow : List Nat) (remaining : List Nat)
  | err (e : Exc)
deriving DecidableEq, Repr

/-- Outcome of one iteration of a `nonblocking_accept` loop: a client
socket yielded, a not-ready suspension, or an exception. -/
inductive AccOut where
  | gotClient (fd : Nat)
  | notReady
  | err (e : Exc)
deriving DecidableEq, Repr

namespace TP

/-- One iteration of `nonblocking_read` in `trampolinepfp.py` (lines
36-44).  No exception handler: a `socket.error` from `select`/`recv`
propagates as-is; an empty `recv` raises `ConnectionLost`; otherwise the
data is returned or `None` is yielded. -/
def readIter (w : W) : RdOut :=
  if w.fault then .err .socketError
  else if w.readReady then
    if w.recvData = [] then .err .connectionLost else .ret w.recvData
  else .notReady

/-- One iteration of `nonblocking_write`'s `while data` body in
`trampolinepfp.py` (lines 46-52), entered with `data ≠ []`.  No exception
handler; if writable, `sent = sock.send(data)` accepts the first
`w.sendCount` bytes and `data = data[sent:]`; the iteration always ends at
`yield None`. -/
def writeIter (w : W) (data : List Nat) : WrOut :=
  if w.fault then .err .socketError
  else if w.writeReady then .progressed (data.take w.sendCount) (data.drop w.sendCount)
  else .progressed [] data

/-- One iteration of `nonblocking_accept` in `trampolinepfp.py` (lines
54-61).  No exception handler; on readiness the client socket is yielded. -/
def acceptIter (w : W) : AccOut :=
  if w.fault then .err .socketError
  else if w.acceptReady then .gotClient w.client
  else .notReady

end TP

namespace T2

/-- One iteration of `nonblocking_read` in `treamp2.py` (lines 27-40).
The loop body sits in `try ... except socket.error: raise ConnectionLost()`,
so an OS fault becomes `ConnectionLost`; an empty `recv` raises
`ConnectionLost` directly (not a `socket.error`, so not re-caught). -/
def readIter (w : W) : RdOut :=
  if w.fault then .err .connectionLost
  else if w.readReady then
    if w.recvData = [] then .err .connectionLost else .ret w.recvData
  else .notReady

/-- One iteration of `nonblocking_write`'s `while data` body in
`treamp2.py` (lines 42-53), entered with `data ≠ []`; `socket.error` is
converted to `ConnectionLost` by the surrounding handler. -/
def writeIter (w : W) (data : List Nat) : WrOut :=
  if w.fault then .err .connectionLost
  else if w.writeReady then .progressed (data.take w.sendCount) (data.drop w.sendCount)
  else .progressed [] data

/-- One iteration of `nonblocking_accept` in `treamp2.py` (lines 55-67);
`socket.error` is converted to `ConnectionLost`. -/
def acceptIter (w : W) : AccOut :=
  if w.fault then .err .connectionLost
  else if w.acceptReady then .gotClient w.client
  else .notReady

end T2

/-- Final status of a bounded run of a `nonblocking_write` generator. -/
inductive WriteStatus where
  | completedW          -- `while data` guard failed: the generator returned
  | pendingW            -- oracle events exhausted with bytes still unsent
  | failedW (e : Exc)   -- an exception propagated out of the generator
deriving DecidableEq, Repr

/-- Trace summary of a bounded `nonblocking_write` run: all bytes handed to
`send` in order, the unsent remainder, and how the run ended. -/
structure WriteResult where
  sent : List Nat
  remaining : List Nat
  status : WriteStatus
deriving DecidableEq, Repr

/-- Drive a `nonblocking_write` generator over a list of per-iteration OS
oracles.  The `while data` guard is checked before consuming an oracle;
an exhausted oracle list leaves the generator pending at its suspension. -/
def writeRun (iter : W → List Nat → WrOut) : List W → List Nat → WriteResult
  | _, [] => ⟨[], [], .completedW⟩
  | [], data => ⟨[], data, .pendingW⟩
  | w :: evs, data =>
      match iter w data with
      | .err e => ⟨[], data, .failedW e⟩
      | .progressed s d' =>
          let r := writeRun iter evs d'
          ⟨s ++ r.sent, r.remaining, r.status⟩

/-!
Coroutine state machines of `trampolinepfp.py`.  There `echo_handler` and
`listen_on` reach the primitives through `yield from`, so each is a single
composite generator whose suspension points are the `yield` statements
inside the primitive loops; the primitives' values pass through to the
trampoline unchanged.
-/

/-- Generator states of `trampolinepfp.py`.  `echoStart none` models
`echo_handler(None)` — the argument `listen_on` actually passes, since
`yield from nonblocking_accept(...)` evaluates to the accept generator's
return value `None`. -/
inductive TPGen where
  | echoStart (sock : Option Nat)   -- fresh `echo_handler(sock)`, body not entered
  | echoReading (sock : Nat)        -- suspended at `yield None` inside `nonblocking_read`
  | echoWriting (sock : Nat) (data : List Nat)  -- at `yield None` inside `nonblocking_write`
  | listenStart (sock : Nat)        -- fresh `listen_on`, body not entered
  | listenAccepting (sock : Nat)    -- at `yield None` inside `nonblocking_accept`
  | listenAcceptYielded (sock : Nat)  -- at `yield client_sock` inside `nonblocking_accept`
  | exhausted                       -- generator finished
deriving DecidableEq, Repr

namespace TP

/-- Control at the top of the `while data` loop of
`nonblocking_write(sock, d)` inside `echo_handler`'s `try`, with `d ≠ []`.
The loop body always ends at `yield None`; `ConnectionLost` would be
caught by `echo_handler` (cannot arise here), any other exception
propagates out of the handler. -/
def echoWriteStep (w : W) (s : Nat) (d : List Nat) : StepOut TPGen :=
  match writeIter w d with
  | .err .connectionLost => .raised .stopIteration
  | .err e => .raised e
  | .progressed _ d' => .yielded (.plain .vnone) (.echoWriting s d')

/-- Control at the top of the `nonblocking_read` loop inside
`echo_handler`'s `try`: a `ConnectionLost` (empty `recv`) is caught by
`except ConnectionLost: pass`, ending the handler normally; a returned
payload flows into `nonblocking_write(sock, data)`, whose first iteration
runs to its `yield None`; a `socket.error` propagates uncaught. -/
def echoReadStep (w : W) (s : Nat) : StepOut TPGen :=
  match readIter w with
  | .err .connectionLost => .raised .stopIteration
  | .err e => .raised e
  | .notReady => .yielded (.plain .vnone) (.echoReading s)
  | .ret d => echoWriteStep w s d

/-- Control at the top of the `nonblocking_accept` loop inside
`listen_on`'s `try`: on readiness the accept generator yields the client
socket straight out to the trampoline. -/
def listenStep (w : W) (s : Nat) : StepOut TPGen :=
  match acceptIter w with
  | .err .connectionLost => .raised .stopIteration
  | .err e => .raised e
  | .notReady => .yielded (.plain .vnone) (.listenAccepting s)
  | .gotClient c => .yielded (.plain (.sock c)) (.listenAcceptYielded s)

/-- A `throw` delivered at a suspension point inside the `try` of
`echo_handler` or `listen_on` (both catch only `ConnectionLost`, ending the
generator normally).  A thrown `StopIteration` escaping the frame becomes
`RuntimeError` (PEP 479); anything else propagates unchanged. -/
def throwInTry (ex : Exc) : StepOut TPGen :=
  match ex with
  | .connectionLost => .raised .stopIteration
  | .stopIteration => .raised .runtimeError
  | e => .raised e

/-- The complete step semantics of `trampolinepfp.py`'s coroutines under
the one-step OS oracle `w`.  No coroutine in this file calls
`trampoline.stop()`; only `listen_on` calls `trampoline.add` — with
`echo_handler(None)`, because the `yield from nonblocking_accept(sock)`
expression evaluates to `None` (the accept generator's return value). -/
def step (w : W) : StepFn TPGen := fun g _ e =>
  match e with
  | some ex =>
      match g with
      | .echoStart _ => ⟨.raised ex, [], false⟩     -- not started: nothing catches
      | .echoReading _ => ⟨throwInTry ex, [], false⟩
      | .echoWriting _ _ => ⟨throwInTry ex, [], false⟩
      | .listenStart _ => ⟨.raised ex, [], false⟩
      | .listenAccepting _ => ⟨throwInTry ex, [], false⟩
      | .listenAcceptYielded _ => ⟨throwInTry ex, [], false⟩
      | .exhausted => ⟨.raised ex, [], false⟩
  | none =>
      match g with
      | .echoStart none => ⟨.raised .attributeError, [], false⟩  -- `None.sock` in select
      | .echoStart (some s) => ⟨echoReadStep w s, [], false⟩
      | .echoReading s => ⟨echoReadStep w s, [], false⟩
      | .echoWriting s d =>
          -- `while data` guard: empty buffer returns to the read loop
          if d = [] then ⟨echoReadStep w s, [], false⟩
          else ⟨echoWriteStep w s d, [], false⟩
      | .listenStart s => ⟨listenStep w s, [], false⟩
      | .listenAccepting s => ⟨listenStep w s, [], false⟩
      | .listenAcceptYielded s =>
          -- accept's `return`: yield-from result is None;
          -- `trampoline.add(handler(None))`, then loop to the next accept
          ⟨listenStep w s, [TPGen.echoStart none], false⟩
      | .exhausted => ⟨.raised .stopIteration, [], false⟩

end TP

/-!
Coroutine state machines of `treamp2.py`.  There `echo_handler` *yields*
the primitive generators (scheduler-level delegation), while `listen_on`
still uses `yield from nonblocking_accept`.
-/

/-- Generator states of `treamp2.py`. -/
inductive T2Gen where
  | nbRead (sock : Nat)                       -- `nonblocking_read`, at `yield None` or fresh
  | nbWrite (sock : Nat) (data : List Nat)    -- `nonblocking_write`, remaining buffer
  | nbAccept (sock : Nat)                     -- `nonblocking_accept`, at `yield None` or fresh
  | nbAcceptYielded (sock : Nat)              -- at `yield client_sock`
  | echoStart (sock : Nat)                    -- fresh `echo_handler`
  | echoAtRead (sock : Nat)                   -- at `yield nonblocking_read(...)`
  | echoAtWrite (sock : Nat)                  -- at `yield nonblocking_write(...)`
  | listenStart (sock : Nat)                  -- fresh `listen_on`
  | listenInAccept (sock : Nat)               -- at `yield None` inside the accept delegate
  | listenAcceptYielded (sock : Nat)          -- at `yield client_sock` inside the accept delegate
  | exhausted
deriving DecidableEq, Repr

namespace T2

/-- A `throw` delivered inside a primitive's
`try ... except socket.error: raise ConnectionLost()` block. -/
def throwInPrim (ex : Exc) : StepOut T2Gen :=
  match ex with
  | .socketError => .raised .connectionLost
  | .stopIteration => .raised .runtimeError   -- PEP 479
  | e => .raised e

/-- A `throw` delivered at one of `echo_handler`'s yields, inside
`try ... except ConnectionLost: break`. -/
def throwInEcho (ex : Exc) : StepOut T2Gen :=
  match ex with
  | .connectionLost => .raised .stopIteration  -- `break` ends the handler normally
  | .stopIteration => .raised .runtimeError
  | e => .raised e

/-- A `throw` delivered inside the accept delegate of `listen_on`: the
accept generator's `except socket.error` turns a socket error into
`ConnectionLost`, which (like a directly thrown `ConnectionLost`)
`listen_on`'s `except ConnectionLost: break` then absorbs. -/
def throwInListen (ex : Exc) : StepOut T2Gen :=
  match ex with
  | .socketError => .raised .stopIteration
  | .connectionLost => .raised .stopIteration
  | .stopIteration => .raised .runtimeError
  | e => .raised e

/-- Control at the accept loop inside `listen_on`'s `try` (via
`yield from nonblocking_accept`): a `ConnectionLost` from the delegate hits
`except ConnectionLost: break`, ending the listener normally. -/
def listenStep (w : W) (s : Nat) : StepOut T2Gen :=
  match acceptIter w with
  | .err .connectionLost => .raised .stopIteration
  | .err e => .raised e
  | .notReady => .yielded (.plain .vnone) (.listenInAccept s)
  | .gotClient c => .yielded (.plain (.sock c)) (.listenAcceptYielded s)

/-- The complete step semantics of `treamp2.py`'s coroutines under the
one-step OS oracle `w`.  `echo_handler` yields primitive *generators*;
`nonblocking_read`'s `return data` is a `StopIteration` (its payload is
dropped: no code catches it to read a value); `listen_on` never reaches
`trampoline.add` because `if client_sock:` tests the accept generator's
`None` return value, so `adds = []` everywhere. -/
def step (w : W) : StepFn T2Gen := fun g v e =>
  match e with
  | some ex =>
      match g with
      | .nbRead _ => ⟨throwInPrim ex, [], false⟩
      | .nbWrite _ _ => ⟨throwInPrim ex, [], false⟩
      | .nbAccept _ => ⟨throwInPrim ex, [], false⟩
      | .nbAcceptYielded _ => ⟨throwInPrim ex, [], false⟩
      | .echoStart _ => ⟨.raised ex, [], false⟩
      | .echoAtRead _ => ⟨throwInEcho ex, [], false⟩
      | .echoAtWrite _ => ⟨throwInEcho ex, [], false⟩
      | .listenStart _ => ⟨.raised ex, [], false⟩
      | .listenInAccept _ => ⟨throwInListen ex, [], false⟩
      | .listenAcceptYielded _ => ⟨throwInListen ex, [], false⟩
      | .exhausted => ⟨.raised ex, [], false⟩
  | none =>
      match g with
      | .nbRead s =>
          match readIter w with
          | .err ex => ⟨.raised ex, [], false⟩
          | .notReady => ⟨.yielded (.plain .vnone) (.nbRead s), [], false⟩
          | .ret _ => ⟨.raised .stopIteration, [], false⟩  -- `return data`
      | .nbWrite s d =>
          if d = [] then ⟨.raised .stopIteration, [], false⟩  -- `while data` guard: return
          else
            match writeIter w d with
            | .err ex => ⟨.raised ex, [], false⟩
            | .progressed _ d' => ⟨.yielded (.plain .vnone) (.nbWrite s d'), [], false⟩
      | .nbAccept s =>
          match acceptIter w with
          | .err ex => ⟨.raised ex, [], false⟩
          | .notReady => ⟨.yielded (.plain .vnone) (.nbAccept s), [], false⟩
          | .gotClient c => ⟨.yielded (.plain (.sock c)) (.nbAcceptYielded s), [], false⟩
      | .nbAcceptYielded _ => ⟨.raised .stopIteration, [], false⟩  -- `return`
      | .echoStart s => ⟨.yielded (.gen (.nbRead s)) (.echoAtRead s), [], false⟩
      | .echoAtRead s =>
          -- `data = yield ...` resumed with v; `data.decode('utf-8')` needs bytes
          match v with
          | .bytes b => ⟨.yielded (.gen (.nbWrite s b)) (.echoAtWrite s), [], false⟩
          | _ => ⟨.raised .attributeError, [], false⟩
      | .echoAtWrite s => ⟨.yielded (.gen (.nbRead s)) (.echoAtRead s), [], false⟩
      | .listenStart s => ⟨listenStep w s, [], false⟩
      | .listenInAccept s => ⟨listenStep w s, [], false⟩
      | .listenAcceptYielded s =>
          -- accept's `return` makes `client_sock = None`; `if client_sock:`
          -- fails, so no handler is added; loop to the next accept
          ⟨listenStep w s, [], false⟩
      | .exhausted => ⟨.raised .stopIteration, [], false⟩

end T2

/-- Modelled from the spec: Scenario 5 and the supervising-loop scenarios
of spec sections 7-8 need tasks that invoke `stop()` while the queue is
nonempty, or fault, or merely idle — behaviors exercised externally
(`t.stop()`, a crashing top-level chain) but not by any coroutine defined
in the two source files.  These test tasks realize exactly those events. -/
inductive ScenarioTask where
  | stopper            -- calls `trampoline.stop()` then yields None
  | raiser (e : Exc)   -- its next resume raises `e`
  | idler              -- yields None forever
deriving DecidableEq, Repr

/-- Step semantics of the scenario test tasks. -/
def scenarioStep : StepFn ScenarioTask := fun t _ e =>
  match e with
  | some ex =>
      match t with
      | .raiser e' => ⟨.raised e', [], false⟩
      | _ => ⟨.raised ex, [], false⟩
  | none =>
      match t with
      | .stopper => ⟨.yielded (.plain .vnone) .idler, [], true⟩
      | .raiser e' => ⟨.raised e', [], false⟩
      | .idler => ⟨.yielded (.plain .vnone) .idler, [], false⟩

/-! Concrete one-step OS oracles used as test inputs. -/

/-- Nothing ready, no fault. -/
def wQuiet : W := ⟨false, [], false, 0, false, 0, false⟩

/-- Readable socket whose `recv` returns zero bytes (orderly peer close). -/
def wEmptyRead : W := ⟨true, [], false, 0, false, 0, false⟩

/-- The OS call raises `socket.error` this step. -/
def wFaulty : W := ⟨false, [], false, 0, false, 0, true⟩

/-- A connection is ready to accept; the new client descriptor is 42. -/
def wAcceptReady : W := ⟨false, [], false, 0, true, 42, false⟩

/-! Helper lemmas about the `nonblocking_write` loop. -/

lemma tp_writeIter_append (w : W) (d s d' : List Nat)
    (h : TP.writeIter w d = .progressed s d') : s ++ d' = d := by
  unfold TP.writeIter at h
  split_ifs at h with h1 h2
  · cases h
    exact List.take_append_drop _ _
  · cases h
    rfl

lemma t2_writeIter_append (w : W) (d s d' : List Nat)
    (h : T2.writeIter w d = .progressed s d') : s ++ d' = d := by
  unfold T2.writeIter at h
  split_ifs at h with h1 h2
  · cases h
    exact List.take_append_drop _ _
  · cases h
    rfl

lemma tp_writeIter_no_fault (w : W) (d : List Nat) (hw : w.fault = false) :
    ∀ e, TP.writeIter w d ≠ .err e := by
  intro e
  unfold TP.writeIter
  rw [hw]
  split_ifs <;> simp_all

lemma t2_writeIter_no_fault (w : W) (d : List Nat) (hw : w.fault = false) :
    ∀ e, T2.writeIter w d ≠ .err e := by
  intro e
  unfold T2.writeIter
  rw [hw]
  split_ifs <;> simp_all

lemma writeRun_sent_append (iter : W → List Nat → WrOut)
    (hiter : ∀ w d s d', iter w d = .progressed s d' → s ++ d' = d) :
    ∀ evs data, (writeRun iter evs data).sent ++ (writeRun iter evs data).remaining = data := by
  intro evs
  induction evs with
  | nil =>
      intro data
      cases data <;> simp [writeRun]
  | cons w evs ih =>
      intro data
      cases data with
      | nil => simp [writeRun]
      | cons b bs =>
          simp only [writeRun]
          cases hit : iter w (b :: bs) with
          | err e => simp
          | progressed s d' =>
              simpa [List.append_assoc, ih d'] using hiter w (b :: bs) s d' hit

lemma writeRun_completed_remaining (iter : W → List Nat → WrOut) :
    ∀ evs data, (writeRun iter evs data).status = .completedW →
      (writeRun iter evs data).remaining = [] := by
  intro evs
  induction evs with
  | nil =>
      intro data
      cases data <;> simp [writeRun]
  | cons w evs ih =>
      intro data
      cases data with
      | nil => simp [writeRun]
      | cons b bs =>
          simp only [writeRun]
          cases hit : iter w (b :: bs) with
          | err e => simp
          | progressed s d' => simpa using ih d'

lemma writeRun_no_fault (iter : W → List Nat → WrOut)
    (hiter : ∀ w d, w.fault = false → ∀ e, iter w d ≠ .err e) :
    ∀ evs data, (∀ w ∈ evs, w.fault = false) →
      (writeRun iter evs data).status = .completedW ∨
      (writeRun iter evs data).status = .pendingW := by
  intro evs
  induction evs with
  | nil =>
      intro data _
      cases data <;> simp [writeRun]
  | cons w evs ih =>
      intro data hf
      cases data with
      | nil => simp [writeRun]
      | cons b bs =>
          simp only [writeRun]
          cases hit : iter w (b :: bs) with
          | err e =>
              exact absurd hit (hiter w (b :: bs) (hf w (List.mem_cons_self w evs)) e)
          | progressed s d' =>
              simpa using ih d' (fun u hu => hf u (List.mem_cons_of_mem w hu))

/-- Claim C5: `nonblocking_write(sock, data)` completes normally only after
the cumulative bytes accepted by `sock.send` equal `len(data)`; every
partial send is retried with exactly the unsent remainder (so the bytes
handed to `send` in order, concatenated with the remainder, always
reconstruct `data`), and without an OS fault the run never ends in an
exception — a partial send is not an error.  Holds for both files. -/
theorem c5_write_retries_until_fully_flushed :
    ∀ (evs : List W) (data : List Nat),
      ((writeRun TP.writeIter evs data).sent ++ (writeRun TP.writeIter evs data).remaining = data
        ∧ ((writeRun TP.writeIter evs data).status = .completedW →
            (writeRun TP.writeIter evs data).sent = data)
        ∧ ((∀ w ∈ evs, w.fault = false) →
            (writeRun TP.writeIter evs data).status = .completedW ∨
            (writeRun TP.writeIter evs data).status = .pendingW))
      ∧ ((writeRun T2.writeIter evs data).sent ++ (writeRun T2.writeIter evs data).remaining = data
        ∧ ((writeRun T2.writeIter evs data).status = .completedW →
            (writeRun T2.writeIter evs data).sent = data)
        ∧ ((∀ w ∈ evs, w.fault = false) →
            (writeRun T2.writeIter evs data).status = .completedW ∨
            (writeRun T2.writeIter evs data).status = .pendingW)) := by
  intro evs data
  have hTPapp := writeRun_sent_append TP.writeIter tp_writeIter_append evs data
  have hT2app := writeRun_sent_append T2.writeIter t2_writeIter_append evs data
  refine ⟨⟨hTPapp, ?_, ?_⟩, ⟨hT2app, ?_, ?_⟩⟩
  · intro hc
    have hrem := writeRun_completed_remaining TP.writeIter evs data hc
    rw [hrem, List.append_nil] at hTPapp
    exact hTPapp
  · exact writeRun_no_fault TP.writeIter tp_writeIter_no_fault evs data
  · intro hc
    have hrem := writeRun_completed_remaining T2.writeIter evs data hc
    rw [hrem, List.append_nil] at hT2app
    exact hT2app
  · exact writeRun_no_fault T2.writeIter t2_writeIter_no_fault evs data

/-- Witness for C5: a buffer of three bytes flushed by two partial sends
(2 bytes, then the rest); the cumulative bytes handed to `send` equal the
buffer and the run completes without error, in both files. -/
theorem c5_write_retries_until_fully_flushed_witness :
    (writeRun TP.writeIter
        [⟨false, [], true, 2, false, 0, false⟩, ⟨false, [], true, 5, false, 0, false⟩]
        [10, 20, 30]).sent = [10, 20, 30]
    ∧ (writeRun T2.writeIter
        [⟨false, [], true, 2, false, 0, false⟩, ⟨false, [], true, 5, false, 0, false⟩]
        [10, 20, 30]).sent = [10, 20, 30]
    ∧ ((writeRun TP.writeIter
        [⟨false, [], true, 2, false, 0, false⟩, ⟨false, [], true, 5, false, 0, false⟩]
        [10, 20, 30]).status = .completedW ∨
       (writeRun TP.writeIter
        [⟨false, [], true, 2, false, 0, false⟩, ⟨false, [], true, 5, false, 0, false⟩]
        [10, 20, 30]).status = .pendingW) := by
  refine ⟨?_, ?_, ?_⟩
  · exact (c5_write_retries_until_fully_flushed _ _).1.2.1 (by decide)
  · exact (c5_write_retries_until_fully_flushed _ _).2.2.1 (by decide)
  · exact (c5_write_retries_until_fully_flushed _ _).1.2.2 (by decide)

/-- Claim C8: when a task with an empty parent chain yields a plain
(non-generator) value, both schedulers append nothing to the queue — the
value is discarded, the task is not re-enqueued, and nothing escapes. -/
theorem c8_toplevel_plain_yield_discarded {τ : Type} (stepFn : StepFn τ)
    (r : Resumption τ) (v : SVal) (c' : τ)
    (hout : (stepFn r.task r.val r.exc).out = .yielded (.plain v) c')
    (hadds : (stepFn r.task r.val r.exc).adds = [])
    (hstack : r.stack = []) :
    TP.resume stepFn r = ⟨[], none, (stepFn r.task r.val r.exc).stops⟩
    ∧ T2.resume stepFn r = ⟨[], none, (stepFn r.task r.val r.exc).stops⟩ := by
  constructor
  · simp [TP.resume, hout, hadds, hstack]
  · simp [T2.resume, hout, hadds, hstack]

/-- Witness for C8: the top-level listener of `trampolinepfp.py` yields the
accepted client socket (a plain value) with no parent chain; the scheduler
discards it and schedules nothing. -/
theorem c8_toplevel_plain_yield_discarded_witness :
    TP.resume (TP.step wAcceptReady) ⟨.listenStart 7, [], .vnone, none⟩ =
      ⟨[], none, false⟩
    ∧ T2.resume (TP.step wAcceptReady) ⟨.listenStart 7, [], .vnone, none⟩ =
      ⟨[], none, false⟩ := by
  simpa using
    c8_toplevel_plain_yield_discarded (TP.step wAcceptReady)
      ⟨.listenStart 7, [], .vnone, none⟩ (.sock 42) (.listenAcceptYielded 7)
      (by decide) (by decide) rfl

/-- Counterexample to C2 as stated: when a delegated `nonblocking_read`
completes (its `return data` raises `StopIteration`) under a waiting
parent, the parent is re-scheduled via `schedule(parent, rest,
*sys.exc_info())` — a resumption that *throws* `StopIteration` into the
parent, not a plain exception-free resume with a void value; `treamp2.py`
additionally schedules the parent a second time. -/
theorem c2_counterexample_completion_rescheduled_as_throw :
    TP.resume (T2.step ⟨true, [9], false, 0, false, 0, false⟩)
        ⟨.nbRead 5, [.echoAtRead 5], .vnone, none⟩ =
      ⟨[⟨.echoAtRead 5, [], .excType .stopIteration, some .stopIteration⟩], none, false⟩
    ∧ T2.resume (T2.step ⟨true, [9], false, 0, false, 0, false⟩)
        ⟨.nbRead 5, [.echoAtRead 5], .vnone, none⟩ =
      ⟨[⟨.echoAtRead 5, [], .excType .stopIteration, some .stopIteration⟩,
        ⟨.echoAtRead 5, [], .vnone, none⟩], none, false⟩
    ∧ (TP.resume (T2.step ⟨true, [9], false, 0, false, 0, false⟩)
        ⟨.nbRead 5, [.echoAtRead 5], .vnone, none⟩).entries ≠
        [⟨.echoAtRead 5, [], .vnone, none⟩] := by
  refine ⟨rfl, rfl, by decide⟩

/-- Claim C2 (amended): on normal completion of a task with a non-empty
parent chain, both schedulers re-schedule the parent with exactly one
frame popped, but the resumption carries the `StopIteration` exception as
a throw-injection (`*sys.exc_info()`), not a plain exception-free resume;
`treamp2.py`'s fall-through additionally re-schedules the parent a second
time with the originally injected value. -/
theorem c2_amended_completion_reschedules_parent_via_throw {τ : Type}
    (stepFn : StepFn τ) (r : Resumption τ) (p : τ) (rest : List τ)
    (hout : (stepFn r.task r.val r.exc).out = .raised .stopIteration)
    (hadds : (stepFn r.task r.val r.exc).adds = [])
    (hstack : r.stack = p :: rest) :
    TP.resume stepFn r =
      ⟨[⟨p, rest, .excType .stopIteration, some .stopIteration⟩], none,
        (stepFn r.task r.val r.exc).stops⟩
    ∧ T2.resume stepFn r =
      ⟨[⟨p, rest, .excType .stopIteration, some .stopIteration⟩,
        ⟨p, rest, r.val, none⟩], none,
        (stepFn r.task r.val r.exc).stops⟩ := by
  constructor
  · simp [TP.resume, hout, hadds, hstack]
  · simp [T2.resume, hout, hadds, hstack]

/-- Witness for amended C2: the completing `nonblocking_read` delegate of
`treamp2.py` under its waiting `echo_handler` parent. -/
theorem c2_amended_witness :
    TP.resume (T2.step ⟨true, [9], false, 0, false, 0, false⟩)
        ⟨.nbRead 6, [.echoAtRead 6], .vnone, none⟩ =
      ⟨[⟨.echoAtRead 6, [], .excType .stopIteration, some .stopIteration⟩], none, false⟩
    ∧ T2.resume (T2.step ⟨true, [9], false, 0, false, 0, false⟩)
        ⟨.nbRead 6, [.echoAtRead 6], .vnone, none⟩ =
      ⟨[⟨.echoAtRead 6, [], .excType .stopIteration, some .stopIteration⟩,
        ⟨.echoAtRead 6, [], .vnone, none⟩], none, false⟩ := by
  simpa using
    c2_amended_completion_reschedules_parent_via_throw
      (T2.step ⟨true, [9], false, 0, false, 0, false⟩)
      ⟨.nbRead 6, [.echoAtRead 6], .vnone, none⟩ (.echoAtRead 6) []
      (by decide) (by decide) rfl

/-- Counterexample to C3 as stated: in `trampolinepfp.py` only
`StopIteration` is caught by `resume`, so when a sub-task faults (here a
`socket.error` during the read) with a waiting parent on its chain, the
fault is *not* delivered to that parent — no resumption is scheduled at
all and the exception escapes into the run loop. -/
theorem c3_counterexample_tp_fault_escapes_instead_of_delivery :
    TP.resume (TP.step wFaulty)
        ⟨.echoReading 5, [.listenAccepting 7], .vnone, none⟩ =
      ⟨[], some .socketError, false⟩
    ∧ (TP.resume (TP.step wFaulty)
        ⟨.echoReading 5, [.listenAccepting 7], .vnone, none⟩).entries = [] := by
  exact ⟨rfl, rfl⟩

/-- Claim C3 (amended): both schedulers push the currently running task
onto a yielded sub-task's parent chain, and a final plain value is
delivered to exactly that parent with its remaining chain intact.  For a
propagated fault the two files diverge: `treamp2.py` throws the fault into
exactly that parent (chain intact) but also re-schedules it a second time
with the stale injected value, while `trampolinepfp.py` delivers no
non-`StopIteration` fault to the parent at all — it escapes the run
loop. -/
theorem c3_amended_delegation_call_return_chain {τ : Type}
    (stepFn : StepFn τ) (r : Resumption τ) :
    (∀ (g c' : τ), (stepFn r.task r.val r.exc).out = .yielded (.gen g) c' →
      (stepFn r.task r.val r.exc).adds = [] →
      TP.resume stepFn r =
        ⟨[⟨g, c' :: r.stack, .vnone, none⟩], none, (stepFn r.task r.val r.exc).stops⟩
      ∧ T2.resume stepFn r =
        ⟨[⟨g, c' :: r.stack, .vnone, none⟩], none, (stepFn r.task r.val r.exc).stops⟩)
    ∧ (∀ (v : SVal) (c' p : τ) (rest : List τ),
        (stepFn r.task r.val r.exc).out = .yielded (.plain v) c' →
        (stepFn r.task r.val r.exc).adds = [] →
        r.stack = p :: rest →
        TP.resume stepFn r = ⟨[⟨p, rest, v, none⟩], none, (stepFn r.task r.val r.exc).stops⟩
        ∧ T2.resume stepFn r = ⟨[⟨p, rest, v, none⟩], none, (stepFn r.task r.val r.exc).stops⟩)
    ∧ (∀ (e : Exc) (p : τ) (rest : List τ),
        (stepFn r.task r.val r.exc).out = .raised e →
        (stepFn r.task r.val r.exc).adds = [] →
        r.stack = p :: rest →
        T2.resume stepFn r =
          ⟨[⟨p, rest, .excType e, some e⟩, ⟨p, rest, r.val, none⟩], none,
            (stepFn r.task r.val r.exc).stops⟩
        ∧ (e ≠ .stopIteration →
            TP.resume stepFn r = ⟨[], some e, (stepFn r.task r.val r.exc).stops⟩)) := by
  refine ⟨?_, ?_, ?_⟩
  · intro g c' hout hadds
    constructor
    · simp [TP.resume, hout, hadds]
    · simp [T2.resume, hout, hadds]
  · intro v c' p rest hout hadds hstack
    constructor
    · simp [TP.resume, hout, hadds, hstack]
    · simp [T2.resume, hout, hadds, hstack]
  · intro e p rest hout hadds hstack
    constructor
    · simp [T2.resume, hout, hadds, hstack]
    · intro hne
      cases e
      · exact absurd rfl hne
      all_goals simp [TP.resume, hout, hadds]

/-- Witness for amended C3, on `treamp2.py`'s own coroutines: the echo
handler yields the read delegate (current task pushed); the not-ready
delegate's plain `None` pops to exactly that parent; and a faulting
delegate is thrown into that parent by `treamp2.py` while the same fault
escapes under `trampolinepfp.py`'s scheduler. -/
theorem c3_amended_witness :
    TP.resume (T2.step wQuiet) ⟨.echoStart 5, [], .vnone, none⟩ =
      ⟨[⟨.nbRead 5, [.echoAtRead 5], .vnone, none⟩], none, false⟩
    ∧ T2.resume (T2.step wQuiet) ⟨.nbRead 5, [.echoAtRead 5], .vnone, none⟩ =
      ⟨[⟨.echoAtRead 5, [], .vnone, none⟩], none, false⟩
    ∧ T2.resume (T2.step wFaulty) ⟨.nbRead 5, [.echoAtRead 5], .vnone, none⟩ =
      ⟨[⟨.echoAtRead 5, [], .excType .connectionLost, some .connectionLost⟩,
        ⟨.echoAtRead 5, [], .vnone, none⟩], none, false⟩
    ∧ TP.resume (T2.step wFaulty) ⟨.nbRead 5, [.echoAtRead 5], .vnone, none⟩ =
      ⟨[], some .connectionLost, false⟩ := by
  refine ⟨?_, ?_, ?_, ?_⟩
  · exact ((c3_amended_delegation_call_return_chain (T2.step wQuiet)
      ⟨.echoStart 5, [], .vnone, none⟩).1 (.nbRead 5) (.echoAtRead 5)
      (by decide) (by decide)).1
  · exact ((c3_amended_delegation_call_return_chain (T2.step wQuiet)
      ⟨.nbRead 5, [.echoAtRead 5], .vnone, none⟩).2.1 .vnone (.nbRead 5)
      (.echoAtRead 5) [] (by decide) (by decide) rfl).2
  · exact ((c3_amended_delegation_call_return_chain (T2.step wFaulty)
      ⟨.nbRead 5, [.echoAtRead 5], .vnone, none⟩).2.2 .connectionLost
      (.echoAtRead 5) [] (by decide) (by decide) rfl).1
  · exact ((c3_amended_delegation_call_return_chain (T2.step wFaulty)
      ⟨.nbRead 5, [.echoAtRead 5], .vnone, none⟩).2.2 .connectionLost
      (.echoAtRead 5) [] (by decide) (by decide) rfl).2 (by decide)

/-- Counterexample to C4 as stated: in `trampolinepfp.py` an OS-level
socket fault during the primitives does not raise `ConnectionLost` — it
propagates as the socket error itself in all three operations. -/
theorem c4_counterexample_tp_fault_is_not_connection_lost :
    TP.readIter wFaulty = .err .socketError
    ∧ TP.readIter wFaulty ≠ .err .connectionLost
    ∧ TP.writeIter wFaulty [1] = .err .socketError
    ∧ TP.acceptIter wFaulty = .err .socketError := by
  refine ⟨rfl, by decide, rfl, rfl⟩

/-- Claim C4 (amended): in `treamp2.py` a zero-length `recv` and an
OS-level socket fault in any of the three primitives raise
`ConnectionLost`, and the scheduler re-injects the condition only into the
faulting task's own parent chain; in `trampolinepfp.py` only the
zero-length `recv` raises `ConnectionLost` — an OS-level fault propagates
as the socket error itself, and `nonblocking_write`/`nonblocking_accept`
never raise `ConnectionLost`. -/
theorem c4_amended_primitive_fault_conversion :
    (∀ (w : W) (d : List Nat),
      (w.fault = true →
        T2.readIter w = .err .connectionLost
        ∧ T2.writeIter w d = .err .connectionLost
        ∧ T2.acceptIter w = .err .connectionLost)
      ∧ (w.fault = false → w.readReady = true → w.recvData = [] →
          T2.readIter w = .err .connectionLost ∧ TP.readIter w = .err .connectionLost)
      ∧ (w.fault = true →
          TP.readIter w = .err .socketError
          ∧ TP.writeIter w d = .err .socketError
          ∧ TP.acceptIter w = .err .socketError)
      ∧ (TP.writeIter w d ≠ .err .connectionLost ∧ TP.acceptIter w ≠ .err .connectionLost))
    ∧ (∀ (τ : Type) (stepFn : StepFn τ) (r : Resumption τ) (p : τ) (rest : List τ),
        (stepFn r.task r.val r.exc).out = .raised .connectionLost →
        (stepFn r.task r.val r.exc).adds = [] →
        r.stack = p :: rest →
        (T2.resume stepFn r).escape = none
        ∧ (T2.resume stepFn r).entries.map (fun en => en.task) = [p, p]) := by
  constructor
  · intro w d
    refine ⟨?_, ?_, ?_, ?_⟩
    · intro hf
      exact ⟨by simp [T2.readIter, hf], by simp [T2.writeIter, hf], by simp [T2.acceptIter, hf]⟩
    · intro hf hr he
      exact ⟨by simp [T2.readIter, hf, hr, he], by simp [TP.readIter, hf, hr, he]⟩
    · intro hf
      exact ⟨by simp [TP.readIter, hf], by simp [TP.writeIter, hf], by simp [TP.acceptIter, hf]⟩
    · constructor
      · unfold TP.writeIter
        split_ifs <;> simp
      · unfold TP.acceptIter
        split_ifs <;> simp
  · intro τ stepFn r p rest hout hadds hstack
    constructor
    · simp [T2.resume, hout, hadds, hstack]
    · simp [T2.resume, hout, hadds, hstack]

/-- Witness for amended C4: a concrete faulting step and a concrete
zero-length read, plus the scheduler re-injecting a delegate's
`ConnectionLost` only into its own parent. -/
theorem c4_amended_witness :
    T2.readIter wFaulty = .err .connectionLost
    ∧ T2.writeIter wFaulty [1, 2] = .err .connectionLost
    ∧ T2.acceptIter wFaulty = .err .connectionLost
    ∧ T2.readIter wEmptyRead = .err .connectionLost
    ∧ TP.readIter wEmptyRead = .err .connectionLost
    ∧ (T2.resume (T2.step wFaulty)
        ⟨.nbRead 8, [.echoAtRead 8], .vnone, none⟩).entries.map (fun en => en.task) =
        [.echoAtRead 8, .echoAtRead 8] := by
  refine ⟨?_, ?_, ?_, ?_, ?_, ?_⟩
  · exact ((c4_amended_primitive_fault_conversion.1 wFaulty []).1 rfl).1
  · exact ((c4_amended_primitive_fault_conversion.1 wFaulty [1, 2]).1 rfl).2.1
  · exact ((c4_amended_primitive_fault_conversion.1 wFaulty []).1 rfl).2.2
  · exact ((c4_amended_primitive_fault_conversion.1 wEmptyRead []).2.1 rfl rfl rfl).1
  · exact ((c4_amended_primitive_fault_conversion.1 wEmptyRead []).2.1 rfl rfl rfl).2
  · exact (c4_amended_primitive_fault_conversion.2 T2Gen (T2.step wFaulty)
      ⟨.nbRead 8, [.echoAtRead 8], .vnone, none⟩ (.echoAtRead 8) []
      (by decide) (by decide) rfl).2

/-- Claim C6: when `ConnectionLost` is raised during the echo handler's
read or write — thrown into the handler at either suspension point, or
raised internally by a zero-length read in `trampolinepfp.py` — the
handler terminates normally (plain generator exhaustion, `StopIteration`),
absorbing the fault: `ConnectionLost` itself never escapes the handler
into the scheduler's run loop.  Holds for both files. -/
theorem c6_echo_handler_absorbs_connection_lost :
    ∀ (w : W) (s : Nat) (d : List Nat) (v : SVal),
      (TP.step w (.echoReading s) v (some .connectionLost)).out = .raised .stopIteration
      ∧ (TP.step w (.echoWriting s d) v (some .connectionLost)).out = .raised .stopIteration
      ∧ (T2.step w (.echoAtRead s) v (some .connectionLost)).out = .raised .stopIteration
      ∧ (T2.step w (.echoAtWrite s) v (some .connectionLost)).out = .raised .stopIteration
      ∧ (w.fault = false → w.readReady = true → w.recvData = [] →
          (TP.step w (.echoReading s) v none).out = .raised .stopIteration)
      ∧ (TP.resume (TP.step w) ⟨.echoReading s, [], v, some .connectionLost⟩).escape ≠
          some .connectionLost
      ∧ (T2.resume (T2.step w) ⟨.echoAtRead s, [], v, some .connectionLost⟩).escape ≠
          some .connectionLost := by
  intro w s d v
  refine ⟨rfl, rfl, rfl, rfl, ?_, ?_, ?_⟩
  · intro hf hr he
    simp [TP.step, TP.echoReadStep, TP.readIter, hf, hr, he]
  · simp [TP.resume, TP.step, TP.throwInTry]
  · simp [T2.resume, T2.step, T2.throwInEcho]

/-- Witness for C6: concrete states — a thrown `ConnectionLost` at each
suspension point and a zero-length read both end the handler normally. -/
theorem c6_echo_handler_absorbs_connection_lost_witness :
    (TP.step wEmptyRead (.echoReading 1) .vnone (some .connectionLost)).out =
      .raised .stopIteration
    ∧ (T2.step wEmptyRead (.echoAtWrite 1) .vnone (some .connectionLost)).out =
      .raised .stopIteration
    ∧ (TP.step wEmptyRead (.echoReading 1) .vnone none).out = .raised .stopIteration := by
  refine ⟨(c6_echo_handler_absorbs_connection_lost wEmptyRead 1 [2] .vnone).1,
    (c6_echo_handler_absorbs_connection_lost wEmptyRead 1 [2] .vnone).2.2.2.1,
    (c6_echo_handler_absorbs_connection_lost wEmptyRead 1 [2] .vnone).2.2.2.2.1 rfl rfl rfl⟩

/-- Claim C7: `stop()` sets the cooperative flag to `False`, and the run
loop checks it between steps: if the step just executed invoked `stop()`
(and nothing escaped), `run()` returns normally right after that step,
leaving the still-pending resumptions in the queue un-resumed. -/
theorem c7_stop_flag_halts_run_after_current_step {τ : Type}
    (resumeFn : Resumption τ → ResumeEff τ) (r : Resumption τ)
    (rest : List (Resumption τ)) (fuel : Nat) (st : SchedState τ) :
    (Trampoline.stop st).running = false
    ∧ ((resumeFn r).stops = true → (resumeFn r).escape = none →
        runAux resumeFn (fuel + 2) ⟨r :: rest, true⟩ =
          (.normal, ⟨rest ++ (resumeFn r).entries, false⟩)) := by
  refine ⟨rfl, fun h1 h2 => ?_⟩
  simp [runAux, h1, h2]

/-- Witness for C7 (spec Scenario 5): a task invokes `stop()` while a
second task — one that would raise if resumed — is still pending; `run`
returns normally and the pending task is left in the queue untouched. -/
theorem c7_stop_flag_halts_run_witness :
    (Trampoline.stop (⟨[], true⟩ : SchedState ScenarioTask)).running = false
    ∧ runAux (TP.resume scenarioStep) 2
        ⟨[⟨.stopper, [], .vnone, none⟩, ⟨.raiser .connectionLost, [], .vnone, none⟩],
          true⟩ =
      (.normal, ⟨[⟨.raiser .connectionLost, [], .vnone, none⟩], false⟩) := by
  have h := c7_stop_flag_halts_run_after_current_step (TP.resume scenarioStep)
    ⟨.stopper, [], .vnone, none⟩ [⟨.raiser .connectionLost, [], .vnone, none⟩] 0
    (⟨[], true⟩ : SchedState ScenarioTask)
  exact ⟨h.1, by simpa using h.2 rfl rfl⟩

/-- Claim C9 (code divergence): when a connection is ready, the top-level
listener of either file yields the accepted client socket straight out to
the scheduler (through `yield from nonblocking_accept`), which discards it
and does not re-enqueue the listener — so the listener runs exactly one
resume step and never accepts again, and no handler is scheduled with the
accepted socket.  (`treamp2.py`'s later `trampoline.add` is unreachable
because `client_sock` is the accept generator's `None` return value;
`trampolinepfp.py`'s would add `echo_handler(None)` — but that step is
never resumed.) -/
theorem c9_listener_dropped_after_first_accept :
    TP.resume (TP.step wAcceptReady) ⟨.listenStart 7, [], .vnone, none⟩ =
      ⟨[], none, false⟩
    ∧ T2.resume (T2.step wAcceptReady) ⟨.listenStart 7, [], .vnone, none⟩ =
      ⟨[], none, false⟩
    ∧ (TP.step wAcceptReady (.listenStart 7) .vnone none).out =
        .yielded (.plain (.sock 42)) (.listenAcceptYielded 7)
    ∧ (T2.step wAcceptReady (.listenStart 7) .vnone none).out =
        .yielded (.plain (.sock 42)) (.listenAcceptYielded 7)
    ∧ (T2.step wAcceptReady (.listenAcceptYielded 7) .vnone none).adds = []
    ∧ (TP.step wAcceptReady (.listenAcceptYielded 7) .vnone none).adds =
        [TPGen.echoStart none] := by
  exact ⟨rfl, rfl, rfl, rfl, rfl, rfl⟩

/-- Claim C1 (code divergence): a fault raised during the resume step of a
task with an empty parent chain escapes `resume` and propagates out of
`run()`, aborting the shared queue-processing loop — the second queued
task is never executed.  Shown for both files: `treamp2.py` with a
zero-length read (`ConnectionLost`) and `trampolinepfp.py` with an OS
fault (`socket.error`). -/
theorem c1_toplevel_fault_aborts_run_loop :
    runAux (T2.resume (T2.step wEmptyRead)) 5
        ⟨[⟨.nbRead 3, [], .vnone, none⟩, ⟨.nbAccept 9, [], .vnone, none⟩], true⟩ =
      (.raised .connectionLost, ⟨[⟨.nbAccept 9, [], .vnone, none⟩], false⟩)
    ∧ runAux (TP.resume (TP.step wFaulty)) 5
        ⟨[⟨.echoReading 3, [], .vnone, none⟩, ⟨.listenAccepting 9, [], .vnone, none⟩],
          true⟩ =
      (.raised .socketError, ⟨[⟨.listenAccepting 9, [], .vnone, none⟩], false⟩) := by
  exact ⟨rfl, rfl⟩

lemma runAux_exit_running_false {τ : Type}
    (resumeFn : Resumption τ → ResumeEff τ) :
    ∀ (fuel : Nat) (st : SchedState τ),
      (runAux resumeFn fuel st).1 ≠ .outOfFuel →
      ((runAux resumeFn fuel st).2).running = false := by
  intro fuel
  induction fuel with
  | zero =>
      intro st h
      exact absurd rfl h
  | succ n ih =>
      intro st h
      by_cases hr : st.running = true
      · cases hq : st.queue with
        | nil =>
            rw [runAux, if_pos hr, hq] at h ⊢
            exact ih st h
        | cons r rest =>
            rw [runAux, if_pos hr, hq] at h ⊢
            cases he : (resumeFn r).escape with
            | none =>
                simp only [he] at h ⊢
                exact ih _ h
            | some e =>
                simp only [he]
      · rw [runAux, if_neg hr]

/-- Claim C10: whenever `Trampoline.run` exits — returning normally after
the flag went down, or with an exception escaping a resume step — the
`finally` block leaves `running = False`. -/
theorem c10_running_flag_false_whenever_run_exits {τ : Type}
    (resumeFn : Resumption τ → ResumeEff τ) (fuel : Nat) (st : SchedState τ) :
    (Trampoline.run resumeFn fuel st).1 ≠ .outOfFuel →
    ((Trampoline.run resumeFn fuel st).2).running = false := by
  intro h
  exact runAux_exit_running_false resumeFn fuel _ h

/-- Witness for C10: a run that exits via an escaping `ConnectionLost`
leaves the flag down. -/
theorem c10_running_flag_false_witness :
    ((Trampoline.run (T2.resume (T2.step wEmptyRead)) 5
        ⟨[⟨.nbRead 3, [], .vnone, none⟩], false⟩).2).running = false := by
  exact c10_running_flag_false_whenever_run_exits
    (T2.resume (T2.step wEmptyRead)) 5 ⟨[⟨.nbRead 3, [], .vnone, none⟩], false⟩
    (by decide)
